import Mathlib

/-!
# Verification of the GATT telemetry/echo server event loop

Shallow embedding of `src/main_server.rs`: a BLE GATT server exposing five
characteristics (CPU load, temperature, RAM usage, uptime — notify-only
telemetry sources — and a write/notify request-response characteristic used
as a duplex echo channel), driven by a single `tokio::select!` event loop.

The embedding models one loop iteration as a `step` function on the mutable
loop state (the per-characteristic `Option` writer/reader handles and the
receive buffer), fed by an environment-chosen arm input (which select
alternative won the race and with what data / IO outcomes).  Byte-stream
writers and readers are modelled by their presence (`Option Unit`); payloads
are byte lists (`List Nat`, each entry < 256).  Fallible Rust operations
(`req.accept()`, `write_f32`, `write_all`, the systemstat queries) take their
success/failure from the environment; the `?` operator in the Rust source is
modelled as a `fatal` step outcome (early return of `Err` from `main`).

Floating point is kept out of the model by carrying the IEEE-754 bit
patterns of the sampled `f32` values as naturals (< 2^32): the source never
computes with them, it only serializes them, and tokio's `write_f32`
serializes exactly the 4 bytes of the bit pattern in big-endian order.
-/

/-- One of the five characteristics of the GATT service, in the order they
appear in the service definition in the source. -/
inductive Chan where
  | cpuLoad
  | temperature
  | ramUsage
  | uptime
  | writeRequestResponse
deriving DecidableEq

/-- The four telemetry-only (notify-only) characteristics, each handled by a
structurally identical `tokio::select!` arm over its control stream. -/
inductive TelemetryChan where
  | cpu
  | temp
  | mem
  | uptime
deriving DecidableEq

/-- A `CharacteristicControlEvent` as delivered by a characteristic's accept
listener: a write-accept request (carrying the negotiated MTU) or a notify
attachment (carrying the negotiated MTU). -/
inductive CtlEvent where
  | write (mtu : Nat)
  | notify (mtu : Nat)
deriving DecidableEq

/-- Result of `reader.read(&mut read_buf)`: `ok data` is a successful read of
`data` (empty list = `Ok(0)`, clean stream end), `err` is a read error. -/
inductive EchoRes where
  | ok (data : List Nat)
  | err
deriving DecidableEq

/-- Environment-chosen outcomes of the fallible writes attempted inside one
tick of the telemetry publisher, in source order: `write_f32` to the CPU-load
sink, `write_f32` to the temperature sink, `write_all` then `flush` to the
memory sink, `write_u64` to the uptime sink. `true` means success. -/
structure TickWriteRes where
  cpu : Bool
  temp : Bool
  mem : Bool
  memFlush : Bool
  uptime : Bool
deriving DecidableEq

/-- One snapshot of the systemstat metrics, as sampled on a tick.
`cpuLoadBits` and `cpuTempBits` carry the IEEE-754 bit patterns of the `f32`
values `cpu_load.system` and `cpu_temperature`; `memTotal` and `memFree` are
the byte counts `memory_usage.total` and `memory_usage.free`;
`uptimeSecs` is `uptime.as_secs()`. -/
structure Snapshot where
  cpuLoadBits : Nat
  cpuTempBits : Nat
  memTotal : Nat
  memFree : Nat
  uptimeSecs : Nat
deriving DecidableEq

/-- The mutable state of the event loop: the four telemetry writer options,
the duplex characteristic's writer (`write_opt`) and reader (`read_opt`)
options, and the receive buffer `read_buf` (reallocated to MTU size on each
write-accept).  Writers and readers are modelled by presence only. -/
structure ServerState where
  cpuLoadWriterOpt : Option Unit
  tempWriterOpt : Option Unit
  memoryWriterOpt : Option Unit
  uptimeWriterOpt : Option Unit
  writeOpt : Option Unit
  readOpt : Option Unit
  readBuf : List Nat
deriving DecidableEq

/-- The loop state right after `serve_gatt_application`: no handle attached,
empty receive buffer (`let mut read_buf = vec![]`). -/
def initialState : ServerState :=
  { cpuLoadWriterOpt := none, tempWriterOpt := none, memoryWriterOpt := none,
    uptimeWriterOpt := none, writeOpt := none, readOpt := none, readBuf := [] }

/-- A byte payload delivered to a characteristic's sink. -/
abbrev WriteRec := Chan × List Nat

/-- The environment's choice of which `tokio::select!` alternative wins one
loop iteration, together with the data it carries:
* `writeReq evt acceptOk` — the request-response control stream yields `evt`
  (`acceptOk` is the outcome of `req.accept()` on a write event);
* `echo res writeOk` — the guarded duplex read completes with `res`
  (`writeOk` is the outcome of the `write_all` retransmission);
* `telemetry ch evt` — telemetry characteristic `ch`'s control stream
  yields `evt`;
* `tick osnap w` — the 1-second timer fires; `osnap = none` means one of the
  systemstat queries returned `Err`, otherwise `osnap` is the snapshot and
  `w` gives the write outcomes. -/
inductive ArmInput where
  | writeReq (evt : Option CtlEvent) (acceptOk : Bool)
  | echo (res : EchoRes) (writeOk : Bool)
  | telemetry (ch : TelemetryChan) (evt : Option CtlEvent)
  | tick (osnap : Option Snapshot) (w : TickWriteRes)
deriving DecidableEq

/-- Outcome of servicing one arm: `cont s ws` continues the loop with new
state `s` after delivering the payloads `ws`; `brk` is `break` out of the
loop; `fatal ws` is an early `return Err(..)` from `main` via `?`, after
having delivered `ws`. -/
inductive StepResult where
  | cont (s : ServerState) (ws : List WriteRec)
  | brk
  | fatal (ws : List WriteRec)
deriving DecidableEq

/-- Big-endian byte serialization of the low `8*k` bits of `n`, as written by
tokio's `write_f32` (k = 4) and `write_u64` (k = 8), which use network
(big-endian) byte order. -/
def beBytes : Nat → Nat → List Nat
  | 0, _ => []
  | k + 1, n => (n / 2 ^ (8 * k)) % 256 :: beBytes k n

/-- Little-endian byte serialization of the low `8*k` bits of `n` — the
encoding the specification prescribes for the fixed-width telemetry values. -/
def leBytes : Nat → Nat → List Nat
  | 0, _ => []
  | k + 1, n => n % 256 :: leBytes k (n / 256)

/-- Round `n / d` to the nearest integer, ties to even (`d > 0` assumed) —
the rounding Rust's fixed-precision float formatting applies to the exact
decimal value. -/
def rndHTE (n d : Nat) : Nat :=
  let q := n / d
  let r := n % d
  if 2 * r < d then q
  else if 2 * r > d then q + 1
  else if q % 2 = 0 then q else q + 1

/-- Render the non-negative rational `n / d` with exactly two digits after
the decimal point, rounding to nearest (ties to even) — the behaviour of
Rust's two-decimal fixed formatting of an `f64` holding exactly `n / d`. -/
def fmt2 (n d : Nat) : String :=
  let h := rndHTE (n * 100) d
  toString (h / 100) ++ "." ++
    (if h % 100 < 10 then "0" ++ toString (h % 100) else toString (h % 100))

/-- The raw bytes of an ASCII string, as produced by `String::into_bytes`. -/
def strBytes (s : String) : List Nat :=
  s.data.map Char.toNat

/-- The memory-usage payload built on a tick:
`used = total - free` as wrapping `u64` subtraction, both values converted
to f64, divided by 1024 twice and formatted to two decimal places as
`used/total MB`.  The f64 conversions and the two divisions by 1024 are
exact for byte counts below `2^53`, so exact rational formatting (`fmt2`)
is a faithful model in that range. -/
def memoryUsagePayload (total free : Nat) : List Nat :=
  let used := (total + 2 ^ 64 - free) % 2 ^ 64
  strBytes (fmt2 used (2 ^ 20) ++ "/" ++ fmt2 total (2 ^ 20) ++ " MB")

/-- The sink payloads of one fully successful tick, in source order: for each
telemetry characteristic whose writer is present, the serialized metric.
CPU load and temperature are written with `write_f32` (big-endian bytes of
the f32 bit pattern), memory as the formatted string, uptime with
`write_u64` (big-endian) of `uptime.as_secs() / 60`. -/
def cpuWrite (s : ServerState) (snap : Snapshot) : List WriteRec :=
  if s.cpuLoadWriterOpt.isSome then [(Chan.cpuLoad, beBytes 4 snap.cpuLoadBits)] else []

/-- Temperature portion of a tick's writes (present writer only). -/
def tempWrite (s : ServerState) (snap : Snapshot) : List WriteRec :=
  if s.tempWriterOpt.isSome then [(Chan.temperature, beBytes 4 snap.cpuTempBits)] else []

/-- Memory portion of a tick's writes (present writer only). -/
def memWrite (s : ServerState) (snap : Snapshot) : List WriteRec :=
  if s.memoryWriterOpt.isSome then
    [(Chan.ramUsage, memoryUsagePayload snap.memTotal snap.memFree)]
  else []

/-- Uptime portion of a tick's writes (present writer only). -/
def uptimeWrite (s : ServerState) (snap : Snapshot) : List WriteRec :=
  if s.uptimeWriterOpt.isSome then [(Chan.uptime, beBytes 8 (snap.uptimeSecs / 60))] else []

/-- All payloads of one fully successful tick, in source order. -/
def tickWrites (s : ServerState) (snap : Snapshot) : List WriteRec :=
  cpuWrite s snap ++ tempWrite s snap ++ memWrite s snap ++ uptimeWrite s snap

/-- One tick of the telemetry publisher after a successful sample, translated
from the `_ = time::sleep(..)` arm: the four writes are attempted in source
order, each guarded by `if let Some(writer)`, and each followed by `?` — a
failed write aborts `main` with the writes already delivered.  No writer
option is ever cleared here. -/
def tickStep (s : ServerState) (snap : Snapshot) (w : TickWriteRes) : StepResult :=
  if s.cpuLoadWriterOpt.isSome && !w.cpu then .fatal []
  else if s.tempWriterOpt.isSome && !w.temp then .fatal (cpuWrite s snap)
  else if s.memoryWriterOpt.isSome && !w.mem then
    .fatal (cpuWrite s snap ++ tempWrite s snap)
  else if s.memoryWriterOpt.isSome && !w.memFlush then
    .fatal (cpuWrite s snap ++ tempWrite s snap ++ memWrite s snap)
  else if s.uptimeWriterOpt.isSome && !w.uptime then
    .fatal (cpuWrite s snap ++ tempWrite s snap ++ memWrite s snap)
  else .cont s (tickWrites s snap)

/-- Install a freshly accepted notify writer on a telemetry characteristic's
endpoint (`xxx_writer_opt = Some(notifier)`). -/
def setTelemetryWriter : TelemetryChan → ServerState → ServerState
  | .cpu, s => { s with cpuLoadWriterOpt := some () }
  | .temp, s => { s with tempWriterOpt := some () }
  | .mem, s => { s with memoryWriterOpt := some () }
  | .uptime, s => { s with uptimeWriterOpt := some () }

/-- One iteration of the `tokio::select!` loop, servicing the winning arm
`a` on state `s`.  Returns `none` when the arm could not have won: the echo
alternative is `future::pending()` unless both `read_opt` and `write_opt`
are present, and a real `read` never returns more bytes than the buffer
holds. -/
def step (s : ServerState) (a : ArmInput) : Option StepResult :=
  match a with
  | .writeReq evt acceptOk =>
    match evt with
    | some (.write mtu) =>
      if acceptOk then
        some (.cont { s with readBuf := List.replicate mtu 0, readOpt := some () } [])
      else some (.fatal [])
    | some (.notify _) => some (.cont { s with writeOpt := some () } [])
    | none => some .brk
  | .echo res writeOk =>
    match s.readOpt, s.writeOpt with
    | some _, some _ =>
      match res with
      | .ok data =>
        if data = [] then some (.cont { s with readOpt := none } [])
        else if data.length ≤ s.readBuf.length then
          if writeOk then
            some (.cont { s with readBuf := data ++ s.readBuf.drop data.length }
              [(Chan.writeRequestResponse, data)])
          else
            some (.cont { s with
              readBuf := data ++ s.readBuf.drop data.length
              writeOpt := none } [])
        else none
      | .err => some (.cont { s with readOpt := none } [])
    | _, _ => none
  | .telemetry ch evt =>
    match evt with
    | some (.notify _) => some (.cont (setTelemetryWriter ch s) [])
    | _ => some .brk
  | .tick osnap w =>
    match osnap with
    | none => some (.fatal [])
    | some snap => some (tickStep s snap w)

/-- Outcome of running the loop on a trace of arm inputs: the payloads
delivered, how many times the service/advertisement registrations were
released (`drop(app_handle); drop(adv_handle)` after the loop, or the
destructors on an early `Err` return), whether the loop exited, and whether
`main` returned `Ok(())`. -/
structure RunResult where
  writes : List WriteRec
  deregs : Nat
  exited : Bool
  ok : Bool
deriving DecidableEq

/-- Run the event loop over a finite trace of environment-chosen arm inputs.
An arm the state disables (`step` returns `none`) never wins, so it is
skipped.  `break` reaches the teardown after the loop; a `?`-propagated error
returns from `main`, running the same handle destructors on the way out. -/
def run (s : ServerState) : List ArmInput → RunResult
  | [] => { writes := [], deregs := 0, exited := false, ok := true }
  | a :: rest =>
    match step s a with
    | none => run s rest
    | some (.cont s' ws) =>
      let r := run s' rest
      { writes := ws ++ r.writes, deregs := r.deregs, exited := r.exited, ok := r.ok }
    | some .brk => { writes := [], deregs := 1, exited := true, ok := true }
    | some (.fatal ws) => { writes := ws, deregs := 1, exited := true, ok := false }

/-- `true` when the arm input is an accept-listener stream ending (`None`
from `.next()`) on any characteristic's control stream. -/
def listenerEnded : ArmInput → Bool
  | .writeReq none _ => true
  | .telemetry _ none => true
  | _ => false

/-- `true` when, given the present writers in `s`, at least one of the
fallible writes attempted by a tick fails under outcomes `w`. -/
def tickFailed (s : ServerState) (w : TickWriteRes) : Bool :=
  (s.cpuLoadWriterOpt.isSome && !w.cpu) ||
  (s.tempWriterOpt.isSome && !w.temp) ||
  (s.memoryWriterOpt.isSome && (!w.mem || !w.memFlush)) ||
  (s.uptimeWriterOpt.isSome && !w.uptime)

/-- All tick writes succeeding. -/
def allWritesOk : TickWriteRes :=
  { cpu := true, temp := true, mem := true, memFlush := true, uptime := true }

/-- Reverse direction to `leBytes`: mapping of a telemetry channel to the
writer option it owns in the loop state. -/
def telemetryWriterOf : TelemetryChan → ServerState → Option Unit
  | .cpu, s => s.cpuLoadWriterOpt
  | .temp, s => s.tempWriterOpt
  | .mem, s => s.memoryWriterOpt
  | .uptime, s => s.uptimeWriterOpt

/-- Frame condition on one serviced iteration: the winning arm may touch
only the endpoint state it owns.  A write-accept on the request-response
characteristic may change only its reader and the receive buffer; a notify
accept there only its writer; an echo step only the duplex reader, writer
and buffer; a telemetry accept only that characteristic's writer; a tick
changes no endpoint state at all. -/
def framePreserved (s : ServerState) (a : ArmInput) (s' : ServerState) : Prop :=
  match a with
  | .writeReq (some (.write _)) _ =>
    s'.cpuLoadWriterOpt = s.cpuLoadWriterOpt ∧ s'.tempWriterOpt = s.tempWriterOpt ∧
    s'.memoryWriterOpt = s.memoryWriterOpt ∧ s'.uptimeWriterOpt = s.uptimeWriterOpt ∧
    s'.writeOpt = s.writeOpt
  | .writeReq (some (.notify _)) _ =>
    s'.cpuLoadWriterOpt = s.cpuLoadWriterOpt ∧ s'.tempWriterOpt = s.tempWriterOpt ∧
    s'.memoryWriterOpt = s.memoryWriterOpt ∧ s'.uptimeWriterOpt = s.uptimeWriterOpt ∧
    s'.readOpt = s.readOpt ∧ s'.readBuf = s.readBuf
  | .writeReq none _ => True
  | .echo _ _ =>
    s'.cpuLoadWriterOpt = s.cpuLoadWriterOpt ∧ s'.tempWriterOpt = s.tempWriterOpt ∧
    s'.memoryWriterOpt = s.memoryWriterOpt ∧ s'.uptimeWriterOpt = s.uptimeWriterOpt
  | .telemetry ch _ =>
    s'.writeOpt = s.writeOpt ∧ s'.readOpt = s.readOpt ∧ s'.readBuf = s.readBuf ∧
    ∀ ch₂ : TelemetryChan, ch₂ ≠ ch → telemetryWriterOf ch₂ s' = telemetryWriterOf ch₂ s
  | .tick _ _ => s' = s

/-- Payload published on the request-response characteristic when the echo
succeeds at `allAttached` on input bytes 1, 2. -/
def allAttached : ServerState :=
  { cpuLoadWriterOpt := some (), tempWriterOpt := some (), memoryWriterOpt := some (),
    uptimeWriterOpt := some (), writeOpt := some (), readOpt := some (),
    readBuf := [0, 0, 0, 0] }

/-- State with only the CPU-load notify writer attached. -/
def cpuOnly : ServerState :=
  { initialState with cpuLoadWriterOpt := some () }

/-- State with only the uptime notify writer attached. -/
def uptimeOnly : ServerState :=
  { initialState with uptimeWriterOpt := some () }

/-- State with only the memory notify writer attached. -/
def memOnly : ServerState :=
  { initialState with memoryWriterOpt := some () }

/-- A concrete metrics snapshot: f32 bit patterns 1 and 2, 1 MiB total and
512 KiB free memory, 3723 seconds of uptime (62 whole minutes). -/
def snapA : Snapshot :=
  { cpuLoadBits := 1, cpuTempBits := 2, memTotal := 2 ^ 20, memFree := 2 ^ 19,
    uptimeSecs := 3723 }

/-- Expected echo step result at `allAttached` for input bytes 1, 2. -/
def echoResultA : StepResult :=
  StepResult.cont { allAttached with readBuf := [1, 2, 0, 0] }
    [(Chan.writeRequestResponse, [1, 2])]

/-- The memory payload as the specification words it: the raw text bytes of
used slash total followed by the MB suffix, both values in megabytes
(2^20 bytes) to two decimal places, with used equal to total minus free. -/
def specMemoryPayload (total free : Nat) : List Nat :=
  strBytes (fmt2 (total - free) (2 ^ 20) ++ "/" ++ fmt2 total (2 ^ 20) ++ " MB")

/-- Claim C2 (corrected), counterexample to the original claim: with the
CPU-load writer attached, a tick whose metrics query fails produces no
writes — but, contrary to the claim, the loop does not continue to the next
tick: it exits with `main` returning the error. -/
theorem sampler_failure_cex :
    run cpuOnly [ArmInput.tick none allWritesOk] =
      { writes := [], deregs := 1, exited := true, ok := false } := by
  decide

/-- Claim C2 (amended): on a tick whose metrics query fails, no telemetry
characteristic receives a write, but the failure is fatal: the `?` operator
propagates the error out of the loop, `main` returns `Err` (the rest of the
trace is never serviced) and the registrations are released on the way out. -/
theorem sampler_failure_skips_writes_but_fatal (s : ServerState) (w : TickWriteRes)
    (rest : List ArmInput) :
    run s (ArmInput.tick none w :: rest) =
      { writes := [], deregs := 1, exited := true, ok := false } := by
  simp [run, step]

/-- Claim C9 (confirmed): on each of the four telemetry-only characteristics,
a notify attachment installs that characteristic's writer and keeps the loop
running, while any other listener outcome — the stream ending or a write
event — breaks out of the entire event loop and reaches the shutdown
teardown. -/
theorem telemetry_nonnotify_event_breaks :
    (∀ (s : ServerState) (ch : TelemetryChan) (mtu : Nat),
      step s (ArmInput.telemetry ch (some (CtlEvent.notify mtu))) =
        some (StepResult.cont (setTelemetryWriter ch s) [])) ∧
    (∀ (s : ServerState) (ch : TelemetryChan) (mtu : Nat) (rest : List ArmInput),
      run s (ArmInput.telemetry ch (some (CtlEvent.write mtu)) :: rest) =
        { writes := [], deregs := 1, exited := true, ok := true }) ∧
    (∀ (s : ServerState) (ch : TelemetryChan) (rest : List ArmInput),
      run s (ArmInput.telemetry ch none :: rest) =
        { writes := [], deregs := 1, exited := true, ok := true }) := by
  refine ⟨fun s ch mtu => rfl, fun s ch mtu rest => ?_, fun s ch rest => ?_⟩ <;>
    simp [run, step]

/-- Claim C5 (confirmed): any accept listener's stream ending makes the
dispatcher leave the `Running` loop at once (the rest of the trace is never
serviced) and perform the transport de-registration — dropping the GATT
application handle and the advertisement handle — exactly once, before a
clean process exit. -/
theorem listener_end_dereg_once (s : ServerState) (a : ArmInput) (rest : List ArmInput)
    (h : listenerEnded a = true) :
    run s (a :: rest) = { writes := [], deregs := 1, exited := true, ok := true } := by
  cases a with
  | writeReq evt aok =>
    cases evt with
    | none => simp [run, step]
    | some e => simp [listenerEnded] at h
  | telemetry ch evt =>
    cases evt with
    | none => simp [run, step]
    | some e => simp [listenerEnded] at h
  | echo res w => simp [listenerEnded] at h
  | tick o w => simp [listenerEnded] at h

/-- Witness for `listener_end_dereg_once`: the CPU characteristic's listener
ending at the fully attached state. -/
theorem listener_end_dereg_once_witness :
    listenerEnded (ArmInput.telemetry TelemetryChan.cpu none) = true ∧
    run allAttached [ArmInput.telemetry TelemetryChan.cpu none] =
      { writes := [], deregs := 1, exited := true, ok := true } :=
  ⟨by decide, listener_end_dereg_once allAttached (ArmInput.telemetry TelemetryChan.cpu none)
    [] (by decide)⟩

/-- Claim C7 (confirmed): when either half of the duplex pair is absent, the
echo alternative is the never-ready `future::pending()` — it can never be the
serviced arm, so it contributes no ready work and cannot win the race. -/
theorem echo_requires_both_halves (s : ServerState) (res : EchoRes) (wOk : Bool)
    (h : s.readOpt = none ∨ s.writeOpt = none) :
    step s (ArmInput.echo res wOk) = none := by
  cases hr : s.readOpt with
  | none => simp [step, hr]
  | some u =>
    cases hw : s.writeOpt with
    | none => simp [step, hr, hw]
    | some v => rcases h with h | h <;> simp_all

/-- Witness for `echo_requires_both_halves`: at the startup state no reader
is attached, so the echo arm is disabled. -/
theorem echo_requires_both_halves_witness :
    (initialState.readOpt = none ∨ initialState.writeOpt = none) ∧
    step initialState (ArmInput.echo EchoRes.err true) = none :=
  ⟨Or.inl rfl, echo_requires_both_halves initialState EchoRes.err true (Or.inl rfl)⟩

/-- Claim C6 (confirmed): every per-channel transport fault on the duplex
characteristic is recovered locally inside the loop.  With both halves
present: a read of zero bytes clears only the reader and surfaces no error;
a read error clears only the reader; a failed retransmission clears only the
writer.  In each case the step is a `cont` — the loop keeps running — and
the record updates leave every telemetry writer untouched. -/
theorem echo_faults_recovered_locally (s : ServerState) (wOk : Bool)
    (hr : s.readOpt = some ()) (hw : s.writeOpt = some ()) :
    step s (ArmInput.echo (EchoRes.ok []) wOk) =
      some (StepResult.cont { s with readOpt := none } []) ∧
    step s (ArmInput.echo EchoRes.err wOk) =
      some (StepResult.cont { s with readOpt := none } []) ∧
    ∀ data : List Nat, data ≠ [] → data.length ≤ s.readBuf.length →
      step s (ArmInput.echo (EchoRes.ok data) false) =
        some (StepResult.cont { s with
          readBuf := data ++ s.readBuf.drop data.length
          writeOpt := none } []) := by
  refine ⟨by simp [step, hr, hw], by simp [step, hr, hw], fun data hd hl => ?_⟩
  simp [step, hr, hw, hd, hl]

/-- Witness for `echo_faults_recovered_locally`: the fully attached state. -/
theorem echo_faults_recovered_locally_witness :
    (allAttached.readOpt = some () ∧ allAttached.writeOpt = some ()) ∧
    step allAttached (ArmInput.echo EchoRes.err true) =
      some (StepResult.cont { allAttached with readOpt := none } []) :=
  ⟨⟨rfl, rfl⟩, (echo_faults_recovered_locally allAttached true rfl rfl).2.1⟩

/-- Claim C4 (confirmed): whenever the echo arm is serviced with a
successful read of a nonempty chunk and a successful retransmission, the
payload delivered to the duplex sink is exactly the bytes read, in order and
unmodified, and its length is bounded by the receive buffer's length; the
receive buffer in turn is allocated by the write-accept arm with exactly the
negotiated MTU as its size. -/
theorem echo_retransmits_exact (s : ServerState) (data : List Nat) (r : StepResult)
    (hd : data ≠ [])
    (hstep : step s (ArmInput.echo (EchoRes.ok data) true) = some r) :
    (∃ s', r = StepResult.cont s' [(Chan.writeRequestResponse, data)] ∧
      data.length ≤ s.readBuf.length) ∧
    ∀ (s₂ : ServerState) (mtu : Nat),
      step s₂ (ArmInput.writeReq (some (CtlEvent.write mtu)) true) =
        some (StepResult.cont
          { s₂ with readBuf := List.replicate mtu 0, readOpt := some () } []) ∧
      (List.replicate mtu 0).length = mtu := by
  refine ⟨?_, fun s₂ mtu => ⟨rfl, by simp⟩⟩
  cases hr : s.readOpt with
  | none => simp [step, hr] at hstep
  | some u =>
    cases hw : s.writeOpt with
    | none => simp [step, hr, hw] at hstep
    | some v =>
      by_cases hl : data.length ≤ s.readBuf.length
      · simp [step, hr, hw, hd, hl] at hstep
        exact ⟨_, hstep.symm, hl⟩
      · simp [step, hr, hw, hd, hl] at hstep

/-- Witness for `echo_retransmits_exact`: echoing the two bytes 1, 2 through
the fully attached state (buffer of size 4). -/
theorem echo_retransmits_exact_witness :
    (([1, 2] : List Nat) ≠ [] ∧
      step allAttached (ArmInput.echo (EchoRes.ok [1, 2]) true) = some echoResultA) ∧
    ∃ s', echoResultA = StepResult.cont s' [(Chan.writeRequestResponse, [1, 2])] ∧
      ([1, 2] : List Nat).length ≤ allAttached.readBuf.length :=
  ⟨⟨by decide, by decide⟩,
    (echo_retransmits_exact allAttached [1, 2] echoResultA (by decide) (by decide)).1⟩

/-- Claim C1 (corrected), counterexample to the original claim: at the fully
attached state, a tick on which the CPU-load write fails delivers nothing to
the temperature, memory or uptime sinks even though their writers are
present, and the loop terminates with `main` returning the error — the
failing writer is not cleared to `None` and the publish step is aborted. -/
theorem tick_write_failure_cex :
    allAttached.tempWriterOpt = some () ∧
    run allAttached [ArmInput.tick (some snapA) { allWritesOk with cpu := false }] =
      { writes := [], deregs := 1, exited := true, ok := false } := by
  decide

/-- Claim C1 (amended): a telemetry write failure on a tick is fatal: the
step ends in the `?`-propagated error with only the writes that preceded the
failing one delivered (a prefix of the tick's full payload list, in source
order CPU load, temperature, memory, uptime); no writer option is cleared
and the loop does not continue. -/
theorem tick_write_failure_fatal (s : ServerState) (snap : Snapshot) (w : TickWriteRes)
    (h : tickFailed s w = true) :
    ∃ ws rest, step s (ArmInput.tick (some snap) w) = some (StepResult.fatal ws) ∧
      ws ++ rest = tickWrites s snap := by
  simp only [step]
  unfold tickStep
  split_ifs with h1 h2 h3 h4 h5
  · exact ⟨[], tickWrites s snap, rfl, rfl⟩
  · exact ⟨cpuWrite s snap, tempWrite s snap ++ memWrite s snap ++ uptimeWrite s snap,
      rfl, by simp [tickWrites]⟩
  · exact ⟨cpuWrite s snap ++ tempWrite s snap, memWrite s snap ++ uptimeWrite s snap,
      rfl, by simp [tickWrites]⟩
  · exact ⟨cpuWrite s snap ++ tempWrite s snap ++ memWrite s snap, uptimeWrite s snap,
      rfl, by simp [tickWrites]⟩
  · exact ⟨cpuWrite s snap ++ tempWrite s snap ++ memWrite s snap, uptimeWrite s snap,
      rfl, by simp [tickWrites]⟩
  · exfalso
    simp only [tickFailed, Bool.or_eq_true, Bool.and_eq_true, Bool.not_eq_true'] at h
    rcases h with ((⟨hp, hf⟩ | ⟨hp, hf⟩) | ⟨hp, hf | hf⟩) | ⟨hp, hf⟩
    · exact h1 (by simp [hp, hf])
    · exact h2 (by simp [hp, hf])
    · exact h3 (by simp [hp, hf])
    · exact h4 (by simp [hp, hf])
    · exact h5 (by simp [hp, hf])

/-- Witness for `tick_write_failure_fatal`: the temperature write failing at
the fully attached state. -/
theorem tick_write_failure_fatal_witness :
    tickFailed allAttached { allWritesOk with temp := false } = true ∧
    ∃ ws rest,
      step allAttached (ArmInput.tick (some snapA) { allWritesOk with temp := false }) =
        some (StepResult.fatal ws) ∧ ws ++ rest = tickWrites allAttached snapA :=
  ⟨by decide, tick_write_failure_fatal allAttached snapA
    { allWritesOk with temp := false } (by decide)⟩

/-- Claim C3 (corrected), counterexample to the original claim: with only
the CPU-load writer attached and a snapshot whose CPU-load f32 bit pattern
is 1, the tick publishes the byte sequence 0, 0, 0, 1 — the big-endian
serialization — whereas the little-endian serialization of that value is
1, 0, 0, 0. -/
theorem little_endian_cex :
    step cpuOnly (ArmInput.tick (some snapA) allWritesOk) =
      some (StepResult.cont cpuOnly [(Chan.cpuLoad, [0, 0, 0, 1])]) ∧
    leBytes 4 snapA.cpuLoadBits = [1, 0, 0, 0] ∧
    ([0, 0, 0, 1] : List Nat) ≠ leBytes 4 snapA.cpuLoadBits := by
  decide

/-- Claim C3 (amended): the fixed-width telemetry values are serialized
big-endian, not little-endian: every payload a tick delivers to the CPU-load
or temperature sink is the big-endian 4-byte serialization of the f32 bit
pattern, and every payload delivered to the uptime sink is the big-endian
8-byte serialization of the whole-minute count `uptime seconds / 60`. -/
theorem telemetry_encoding_big_endian (s : ServerState) (snap : Snapshot)
    (ch : Chan) (pl : List Nat) (h : (ch, pl) ∈ tickWrites s snap) :
    (ch = Chan.cpuLoad → pl = beBytes 4 snap.cpuLoadBits) ∧
    (ch = Chan.temperature → pl = beBytes 4 snap.cpuTempBits) ∧
    (ch = Chan.uptime → pl = beBytes 8 (snap.uptimeSecs / 60)) := by
  refine ⟨fun hch => ?_, fun hch => ?_, fun hch => ?_⟩ <;> subst hch <;>
    simp only [tickWrites, cpuWrite, tempWrite, memWrite, uptimeWrite,
      List.mem_append] at h <;>
    split_ifs at h <;> simp_all

/-- Witness for `telemetry_encoding_big_endian`: the uptime payload of a
tick at 3723 seconds (62 whole minutes). -/
theorem telemetry_encoding_big_endian_witness :
    ((Chan.uptime, beBytes 8 (snapA.uptimeSecs / 60)) ∈ tickWrites uptimeOnly snapA) ∧
    (Chan.uptime = Chan.uptime → beBytes 8 (snapA.uptimeSecs / 60) =
      beBytes 8 (snapA.uptimeSecs / 60)) :=
  ⟨by decide, (telemetry_encoding_big_endian uptimeOnly snapA Chan.uptime
    (beBytes 8 (snapA.uptimeSecs / 60)) (by decide)).2.2⟩

/-- The wrapping `u64` subtraction in the memory payload agrees with plain
subtraction whenever `free ≤ total < 2^64`. -/
theorem wrapSub_eq (total free : Nat) (hle : free ≤ total) (hlt : total < 2 ^ 64) :
    (total + 2 ^ 64 - free) % 2 ^ 64 = total - free := by
  have h64 : (2 : Nat) ^ 64 = 18446744073709551616 := by norm_num
  omega

/-- Claim C8 (confirmed): on any tick with the memory writer present, the
payload published on the RAM-usage characteristic is exactly the raw text
bytes of used slash total followed by the MB suffix — both values in
megabytes (2^20 bytes) to two decimal places, used equal to total minus
free.  The range bound keeps the source's f64 arithmetic exact, so the
rational formatting model is faithful there. -/
theorem memory_payload_spec_format (s : ServerState) (snap : Snapshot)
    (hm : s.memoryWriterOpt = some ()) (hle : snap.memFree ≤ snap.memTotal)
    (hlt : snap.memTotal < 2 ^ 53) :
    (Chan.ramUsage, specMemoryPayload snap.memTotal snap.memFree) ∈ tickWrites s snap := by
  have hwrap : (snap.memTotal + 2 ^ 64 - snap.memFree) % 2 ^ 64 =
      snap.memTotal - snap.memFree :=
    wrapSub_eq _ _ hle (lt_trans hlt (by norm_num))
  have hpay : memoryUsagePayload snap.memTotal snap.memFree =
      specMemoryPayload snap.memTotal snap.memFree := by
    norm_num at hwrap
    simp [memoryUsagePayload, specMemoryPayload, hwrap]
  rw [← hpay]
  simp [tickWrites, memWrite, hm]

/-- Witness for `memory_payload_spec_format`: 1 MiB total, 512 KiB free. -/
theorem memory_payload_spec_format_witness :
    (memOnly.memoryWriterOpt = some () ∧ snapA.memFree ≤ snapA.memTotal ∧
      snapA.memTotal < 2 ^ 53) ∧
    (Chan.ramUsage, specMemoryPayload snapA.memTotal snapA.memFree) ∈
      tickWrites memOnly snapA :=
  ⟨⟨rfl, by decide, by decide⟩,
    memory_payload_spec_format memOnly snapA rfl (by decide) (by decide)⟩

/-- Claim C10 (confirmed): a serviced iteration that keeps the loop running
mutates only the endpoint state owned by the winning alternative, as spelled
out by `framePreserved`: accepts touch only their own characteristic's
handles (plus the receive buffer for a write-accept), the echo step touches
only the duplex endpoint, and a completed tick touches no endpoint state. -/
theorem step_frame_condition (s : ServerState) (a : ArmInput) (s' : ServerState)
    (ws : List WriteRec) (h : step s a = some (StepResult.cont s' ws)) :
    framePreserved s a s' := by
  cases a with
  | writeReq evt aok =>
    cases evt with
    | none => simp [step] at h
    | some e =>
      cases e with
      | write mtu =>
        cases aok with
        | false => simp [step] at h
        | true =>
          simp only [step, if_true, Option.some.injEq, StepResult.cont.injEq] at h
          obtain ⟨rfl, -⟩ := h
          simp [framePreserved]
      | notify mtu =>
        simp only [step, Option.some.injEq, StepResult.cont.injEq] at h
        obtain ⟨rfl, -⟩ := h
        simp [framePreserved]
  | echo res wOk =>
    cases hr : s.readOpt with
    | none => simp [step, hr] at h
    | some u =>
      cases hw : s.writeOpt with
      | none => simp [step, hr, hw] at h
      | some v =>
        cases res with
        | err =>
          simp only [step, hr, hw, Option.some.injEq, StepResult.cont.injEq] at h
          obtain ⟨rfl, -⟩ := h
          simp [framePreserved]
        | ok data =>
          by_cases hd : data = []
          · subst hd
            simp only [step, hr, hw, if_pos rfl, Option.some.injEq,
              StepResult.cont.injEq] at h
            obtain ⟨rfl, -⟩ := h
            simp [framePreserved]
          · by_cases hl : data.length ≤ s.readBuf.length
            · cases wOk with
              | true =>
                simp only [step, hr, hw, if_neg hd, if_pos hl, if_true,
                  Option.some.injEq, StepResult.cont.injEq] at h
                obtain ⟨rfl, -⟩ := h
                simp [framePreserved]
              | false =>
                simp only [step, hr, hw, if_neg hd, if_pos hl, Bool.false_eq_true,
                  if_false, Option.some.injEq, StepResult.cont.injEq] at h
                obtain ⟨rfl, -⟩ := h
                simp [framePreserved]
            · simp [step, hr, hw, hd, hl] at h
  | telemetry ch evt =>
    cases evt with
    | none => simp [step] at h
    | some e =>
      cases e with
      | write mtu => simp [step] at h
      | notify mtu =>
        simp only [step, Option.some.injEq, StepResult.cont.injEq] at h
        obtain ⟨rfl, -⟩ := h
        cases ch <;> refine ⟨rfl, rfl, rfl, fun ch₂ hne => ?_⟩ <;> cases ch₂ <;>
          simp_all [setTelemetryWriter, telemetryWriterOf]
  | tick osnap w =>
    cases osnap with
    | none => simp [step] at h
    | some snap =>
      simp only [step, Option.some.injEq] at h
      unfold tickStep at h
      split_ifs at h <;> injection h with h1 h2 <;> exact h1.symm

/-- Witness for `step_frame_condition`: a notify accept on the CPU
characteristic at the fully attached state. -/
theorem step_frame_condition_witness :
    step allAttached (ArmInput.telemetry TelemetryChan.cpu (some (CtlEvent.notify 23))) =
      some (StepResult.cont (setTelemetryWriter TelemetryChan.cpu allAttached) []) ∧
    framePreserved allAttached
      (ArmInput.telemetry TelemetryChan.cpu (some (CtlEvent.notify 23)))
      (setTelemetryWriter TelemetryChan.cpu allAttached) :=
  ⟨rfl, step_frame_condition allAttached
    (ArmInput.telemetry TelemetryChan.cpu (some (CtlEvent.notify 23)))
    (setTelemetryWriter TelemetryChan.cpu allAttached) [] rfl⟩
